import Mathlib

/-!
Verification of the user-management REST API (Express/Mongoose backend).

The definitions below are a shallow embedding of the auth/validation core:
the validation middleware (`validateUser`), the Mongoose user schema
constraints, the auth controllers (`register`, `login`) and the CRUD
controllers (`getAllUsers`, `updateUser`, `deleteUser`), and the route
table of `routes/user.route.js`.

JavaScript semantics relevant here: a missing field is `undefined`
(falsy), the empty string and the number `0` are falsy, every array is
truthy.  Optional request fields are modelled as `Option` values with an
explicit truthiness predicate.
-/

namespace UserApi

/-- JavaScript truthiness of an optional string field: absent (undefined)
and the empty string are falsy. -/
def truthyS : Option String → Bool
  | none => false
  | some s => s != ""

/-- JavaScript truthiness of an optional numeric field: absent (undefined)
and the number 0 are falsy. -/
def truthyI : Option Int → Bool
  | none => false
  | some n => n != 0

/-- Character class of the name pattern in the validation middleware:
letters and spaces. -/
def isNameChar (c : Char) : Bool := c.isAlpha || c = ' '

/-- Whole-string match of the middleware name pattern (letters and
spaces, at least one character). -/
def nameMatch (s : String) : Bool :=
  s.length > 0 && s.toList.all isNameChar

/-- Whole-string match of the middle-initial pattern (letters only, at
least one character). -/
def initialMatch (s : String) : Bool :=
  s.length > 0 && s.toList.all Char.isAlpha

/-- Character class of the email local part: word characters, dot and
hyphen. -/
def isWordChar (c : Char) : Bool := c.isAlphanum || c = '_' || c = '.' || c = '-'

/-- The fixed institutional email suffix, as a character list. -/
def emailSuffix : List Char := '@' :: ('s' :: 'm' :: 'u' :: '.' :: 'e' :: 'd' :: 'u' :: '.' :: 'p' :: 'h' :: [])

/-- Whole-string match of the institutional email pattern: a non-empty
local part of word characters, dots and hyphens, followed by the literal
suffix at smu dot edu dot ph. -/
def emailMatch (s : String) : Bool :=
  let cs := s.toList
  let n := cs.length
  decide (12 ≤ n) && decide (cs.drop (n - 11) = emailSuffix)
    && (cs.take (n - 11)).all isWordChar

/-- The request body as seen by the validation middleware; each field may
be absent. -/
structure ReqBody where
  firstName : Option String := none
  lastName : Option String := none
  middleInitial : Option String := none
  email : Option String := none
  age : Option Int := none
  gender : Option String := none
  deriving Repr, DecidableEq

/-- Outcome of a middleware: either control passes to the next handler or
the request is answered with a status code and a message. -/
inductive MWResult where
  | next : MWResult
  | reject (status : Nat) (message : String) : MWResult
  deriving Repr, DecidableEq

/-- The validation middleware, translated from the source: presence check
first (JavaScript falsiness, so age 0 trips it), then name patterns, then
the email domain, then the age range, then the gender enumeration; the
first failing check answers the request. -/
def validateUser (b : ReqBody) : MWResult :=
  if !truthyS b.firstName || !truthyS b.lastName || !truthyS b.email
      || !truthyI b.age || !truthyS b.gender then
    .reject 400 "Some Fields are Missing"
  else if !nameMatch (b.firstName.getD "") || !nameMatch (b.lastName.getD "")
      || (truthyS b.middleInitial && !initialMatch (b.middleInitial.getD "")) then
    .reject 400 "Names must contain only letters and spaces"
  else if !emailMatch (b.email.getD "") then
    .reject 400 "Only smu.edu.ph Emails Onlys"
  else if b.age.getD 0 < 1 || b.age.getD 0 > 500 then
    .reject 400 "Age Must Be Between 1 and 500"
  else if !(["male", "female", "rather not say"].contains (b.gender.getD "")) then
    .reject 400 "Gender is Invalid"
  else .next

/-- Characters removed by trimming at both ends of a string field. -/
def isWhite (c : Char) : Bool := c.isWhitespace

/-- Trim on character lists (the store trims string fields before
validating them). -/
def trimChars (cs : List Char) : List Char :=
  ((cs.dropWhile isWhite).reverse.dropWhile isWhite).reverse

/-- A creation candidate as handed to the store. -/
structure Candidate where
  firstName : String
  lastName : String
  middleInitial : Option String := none
  email : String
  age : Int
  gender : String
  deriving Repr, DecidableEq

/-- The store schema rule for first and last name, from the source model:
after trimming, length between 2 and 30 and letters only (the schema
pattern admits no space). -/
def schemaNameOk (s : String) : Bool :=
  let t := trimChars s.toList
  decide (2 ≤ t.length) && decide (t.length ≤ 30) && t.all Char.isAlpha

/-- The store schema rule for the optional middle initial: when present,
after trimming, length between 1 and 3 and letters only. -/
def schemaMiddleOk : Option String → Bool
  | none => true
  | some m =>
    let t := trimChars m.toList
    decide (1 ≤ t.length) && decide (t.length ≤ 3) && t.all Char.isAlpha

/-- The store schema rule for the email: after trimming, length between
10 and 50 and the institutional pattern. -/
def schemaEmailOk (s : String) : Bool :=
  let t := trimChars s.toList
  decide (10 ≤ t.length) && decide (t.length ≤ 50)
    && emailMatch (String.mk t)

/-- Store-level validation of a creation candidate, translated from the
schema in the source model file. -/
def schemaValidates (c : Candidate) : Bool :=
  schemaNameOk c.firstName && schemaNameOk c.lastName
    && schemaMiddleOk c.middleInitial && schemaEmailOk c.email
    && decide (1 ≤ c.age) && decide (c.age ≤ 500)
    && ["male", "female", "rather not say"].contains c.gender

/-- A bcrypt-style stored credential.  Modelled from the spec: the
credential field and its pre-save hashing hook (work factor 10,
randomized per-record salt, section 4.1 of the spec) are absent from the
schema in the source model file, while the controllers, their unit tests
and the project README all rely on them.  The hash itself is a parameter
`hashFn : salt → plaintext → digest`; a stored credential records the
cost factor, the salt and the digest. -/
structure HashedCred where
  cost : Nat
  salt : String
  digest : String
  deriving Repr, DecidableEq

/-- A persisted account.  The `password` and `role` fields are modelled
from the spec (section 3: role is a closed enum defaulting to staff, the
credential is a one-way hash), since the schema in the source model file
lacks them while every caller uses them. -/
structure StoredUser where
  id : String
  firstName : String
  lastName : String
  middleInitial : Option String := none
  email : String
  age : Int
  gender : String
  password : HashedCred
  role : String
  deriving Repr, DecidableEq

/-- The credential store: the list of persisted accounts. -/
abbrev Store := List StoredUser

/-- Lookup by email, as performed by findOne on the email key. -/
def findByEmail (st : Store) (e : String) : Option StoredUser :=
  st.find? (fun u => u.email = e)

/-- Lookup by id, as performed by findById. -/
def findById (st : Store) (i : String) : Option StoredUser :=
  st.find? (fun u => u.id = i)

/-- The registration request body as destructured by the register
controller; the role field is optional and defaulted in the controller. -/
structure RegisterBody where
  firstName : String
  lastName : String
  middleInitial : Option String := none
  email : String
  age : Int
  gender : String
  password : String
  role : Option String := none
  deriving Repr, DecidableEq

/-- The creation candidate the register controller hands to the store. -/
def candidateOf (b : RegisterBody) : Candidate :=
  { firstName := b.firstName
    lastName := b.lastName
    middleInitial := b.middleInitial
    email := b.email
    age := b.age
    gender := b.gender }

/-- The role stored for a registration: the controller writes
role or-else staff, so an absent or empty role falls back to staff
(JavaScript or-with-falsy). -/
def roleOrDefault : Option String → String
  | none => "staff"
  | some r => if r = "" then "staff" else r

/-- A signed bearer token: the claims embedded by the token service plus
the expiry option it was signed with.  Decoding a token recovers exactly
these claims. -/
structure Token where
  id : String
  email : String
  role : String
  expiresIn : String
  deriving Repr, DecidableEq

/-- The response envelope of the auth controllers.  `userFields` is the
JSON object literal placed under data.user, as a key/value list, so that
the absence of a credential key is expressible. -/
structure AuthResponse where
  status : Nat
  success : Bool
  message : String
  userFields : Option (List (String × String)) := none
  token : Option Token := none
  deriving Repr, DecidableEq

/-- The data.user object literal built by register and login: exactly the
keys id, firstName, lastName, email and role. -/
def publicUserJson (u : StoredUser) : List (String × String) :=
  [("id", u.id), ("firstName", u.firstName), ("lastName", u.lastName),
   ("email", u.email), ("role", u.role)]

/-- The account the store persists for a registration: the submitted
fields, a fresh identifier, the spec-modelled hashed credential (work
factor 10, the fresh per-record salt) and the defaulted role. -/
def newUser (hashFn : String → String → String) (freshId freshSalt : String)
    (b : RegisterBody) : StoredUser :=
  { id := freshId
    firstName := b.firstName
    lastName := b.lastName
    middleInitial := b.middleInitial
    email := b.email
    age := b.age
    gender := b.gender
    password := { cost := 10, salt := freshSalt
                  digest := hashFn freshSalt b.password }
    role := roleOrDefault b.role }

/-- The register controller.  Translated from the source: duplicate-email
check first (400), then store creation (schema validation plus the
spec-modelled password rules: minimum length 6 and hashing), then a token
signed with a 7-day expiry.  `freshId` and `freshSalt` stand for the
identifier and salt the store draws at creation time. -/
def register (hashFn : String → String → String) (freshId freshSalt : String)
    (st : Store) (b : RegisterBody) : Store × AuthResponse :=
  match findByEmail st b.email with
  | some _ =>
    (st, { status := 400, success := false
           message := "User with this email already exists" })
  | none =>
    if schemaValidates (candidateOf b) && decide (6 ≤ b.password.length) then
      let u : StoredUser := newUser hashFn freshId freshSalt b
      (st ++ [u],
       { status := 201, success := true
         message := "User registered successfully"
         userFields := some (publicUserJson u)
         token := some { id := u.id, email := u.email, role := u.role
                         expiresIn := "7d" } })
    else
      (st, { status := 500, success := false, message := "ValidationError" })

/-- The login request body; either field may be absent. -/
structure LoginBody where
  email : Option String := none
  password : Option String := none
  deriving Repr, DecidableEq

/-- The comparePassword instance method.  Modelled from the spec
(section 4.1): the stored digest is recomputed from the stored salt and
the candidate plaintext and compared. -/
def comparePassword (hashFn : String → String → String)
    (cred : HashedCred) (candidate : String) : Bool :=
  hashFn cred.salt candidate == cred.digest

/-- The login controller, translated from the source: presence check on
email and password (400), then lookup by email with the credential field
selected; an absent email and a non-matching password both answer 401
with the same message; success answers 200 with a token signed with a
7-day expiry. -/
def login (hashFn : String → String → String) (st : Store) (b : LoginBody) :
    AuthResponse :=
  if !truthyS b.email || !truthyS b.password then
    { status := 400, success := false
      message := "Email and password are required" }
  else
    match findByEmail st (b.email.getD "") with
    | none =>
      { status := 401, success := false, message := "Invalid email or password" }
    | some u =>
      if !comparePassword hashFn u.password (b.password.getD "") then
        { status := 401, success := false, message := "Invalid email or password" }
      else
        { status := 200, success := true, message := "Login successful"
          userFields := some (publicUserJson u)
          token := some { id := u.id, email := u.email, role := u.role
                          expiresIn := "7d" } }

/-- In JavaScript an array is always truthy, even when empty; the
falsiness test on the find result in getAllUsers is therefore modelled by
a constantly false predicate on lists. -/
def jsArrayFalsy (_ : List StoredUser) : Bool := false

/-- User.find with no filter: resolves to the list of all stored
accounts (an array, never null). -/
def userFind (st : Store) : List StoredUser := st

/-- The response envelope of the list endpoint. -/
structure UsersResponse where
  status : Nat
  success : Bool
  message : Option String := none
  count : Option Nat := none
  data : Option (List StoredUser) := none
  deriving Repr, DecidableEq

/-- The getAllUsers controller, translated from the source: it fetches
all accounts, answers 404 when the result is falsy (which an array never
is) and otherwise answers 200 with the count and the list. -/
def getAllUsers (st : Store) : UsersResponse :=
  let users := userFind st
  if jsArrayFalsy users then
    { status := 404, success := false, message := some "Users Not Found" }
  else
    { status := 200, success := true, count := some users.length
      data := some users }

/-- The partial update body accepted by the update endpoint. -/
structure UpdateBody where
  firstName : Option String := none
  lastName : Option String := none
  middleInitial : Option String := none
  email : Option String := none
  age : Option Int := none
  gender : Option String := none
  role : Option String := none
  deriving Repr, DecidableEq

/-- Merge the fields present in a partial update into a stored account,
as findByIdAndUpdate does. -/
def applyUpdate (b : UpdateBody) (u : StoredUser) : StoredUser :=
  { u with
    firstName := b.firstName.getD u.firstName
    lastName := b.lastName.getD u.lastName
    middleInitial := match b.middleInitial with
      | some m => some m
      | none => u.middleInitial
    email := b.email.getD u.email
    age := b.age.getD u.age
    gender := b.gender.getD u.gender
    role := b.role.getD u.role }

/-- Replace the first list element satisfying the predicate. -/
def updateFirst (p : StoredUser → Bool) (f : StoredUser → StoredUser) :
    Store → Store
  | [] => []
  | u :: us => if p u then f u :: us else u :: updateFirst p f us

/-- findByIdAndUpdate with the new-document option: update the first
account whose id matches and return the updated document, or return
nothing when the id is absent. -/
def findByIdAndUpdate (st : Store) (i : String) (b : UpdateBody) :
    Store × Option StoredUser :=
  match findById st i with
  | none => (st, none)
  | some u =>
    (updateFirst (fun v => v.id = i) (fun _ => applyUpdate b u) st,
     some (applyUpdate b u))

/-- findByIdAndDelete: remove the first account whose id matches and
return the removed document, or return nothing when the id is absent. -/
def findByIdAndDelete (st : Store) (i : String) : Store × Option StoredUser :=
  match findById st i with
  | none => (st, none)
  | some u => (st.eraseP (fun v => v.id = i), some u)

/-- The response envelope of the single-document CRUD endpoints. -/
structure DocResponse where
  status : Nat
  success : Bool
  message : Option String := none
  data : Option StoredUser := none
  deriving Repr, DecidableEq

/-- The updateUser controller, translated from the source.  The caller
identity `callerId` (the id attached to the request by the auth
middleware) is an argument because it is present on the request, but the
source handler never reads it: the handler calls findByIdAndUpdate
directly, answers 404 when the id is absent and 200 with the updated
document otherwise.  There is no self-modification guard in this code,
although the repository's own unit tests assert one.  The count key of
the success response evaluates to undefined in the source (length of a
single document) and is omitted here as JSON omits undefined values. -/
def updateUser (st : Store) (callerId : String) (targetId : String)
    (b : UpdateBody) : Store × DocResponse :=
  let _ := callerId
  match findByIdAndUpdate st targetId b with
  | (st', none) =>
    (st', { status := 404, success := false, message := some "Users Not Found" })
  | (st', some u) =>
    (st', { status := 200, success := true, data := some u })

/-- The deleteUser controller, translated from the source.  As with
updateUser, the caller identity is on the request but never read: the
handler deletes by target id unconditionally, answering 404 when the id
is absent and 200 with the deleted document otherwise.  There is no
self-deletion guard in this code, although the repository's own unit
tests assert one. -/
def deleteUser (st : Store) (callerId : String) (targetId : String) :
    Store × DocResponse :=
  let _ := callerId
  match findByIdAndDelete st targetId with
  | (st', none) =>
    (st', { status := 404, success := false, message := some "User not found" })
  | (st', some u) =>
    (st', { status := 200, success := true, message := some "User deleted"
            data := some u })

/-- A middleware or handler slot in a route's chain. -/
inductive MW where
  | validateUserMW : MW
  | authMW : MW
  | roleMW (roles : List String) : MW
  | handlerMW (name : String) : MW
  deriving Repr, DecidableEq

/-- A registered route: method, path pattern and the chain dispatch runs
left to right. -/
structure Route where
  method : String
  path : String
  chain : List MW
  deriving Repr, DecidableEq

/-- The route table of the user router, translated from the source route
file in registration order.  No route registers the auth middleware or a
role check; the only line mentioning checkRole is commented out in the
source. -/
def userRoutes : List Route :=
  [ { method := "DELETE", path := "/deleteAllUsers"
      chain := [MW.handlerMW "deleteAllUsers"] },
    { method := "GET", path := "/"
      chain := [MW.handlerMW "getAllUsers"] },
    { method := "POST", path := "/"
      chain := [MW.validateUserMW, MW.handlerMW "createUser"] },
    { method := "GET", path := "/:id"
      chain := [MW.handlerMW "getUserById"] },
    { method := "PUT", path := "/:id"
      chain := [MW.validateUserMW, MW.handlerMW "updateUser"] },
    { method := "DELETE", path := "/:id"
      chain := [MW.handlerMW "deleteUser"] } ]

/-- Recognize the middleware slots that check a token or a role. -/
def isAuthOrRole : MW → Bool
  | MW.authMW => true
  | MW.roleMW _ => true
  | _ => false

/-- The request body corresponding to a creation candidate, as the
validation gate sees it on the same request. -/
def reqOf (c : Candidate) : ReqBody :=
  { firstName := some c.firstName
    lastName := some c.lastName
    middleInitial := c.middleInitial
    email := some c.email
    age := some c.age
    gender := some c.gender }

/-- A concrete hash function for witnesses: a bcrypt-shaped header
followed by the salt and an encoding of the plaintext.  Its one relevant
property, proved below, is that its output never equals the plaintext. -/
def demoHash (salt plain : String) : String := "$2b$10$" ++ salt ++ plain

/-- A concrete stored credential for witness stores. -/
def demoCred : HashedCred := { cost := 10, salt := "salt0", digest := "h0" }

/-- A concrete persisted account for witness stores. -/
def aliceUser : StoredUser :=
  { id := "u1", firstName := "Alice", lastName := "Cruz"
    email := "alice@smu.edu.ph", age := 30, gender := "female"
    password := demoCred, role := "staff" }

/-- A second concrete persisted account for witness stores. -/
def carlosUser : StoredUser :=
  { id := "u2", firstName := "Carlos", lastName := "Reyes"
    email := "carlos@smu.edu.ph", age := 41, gender := "male"
    password := demoCred, role := "staff" }

/-- The concrete registration body of the spec's register scenario. -/
def johnBody : RegisterBody :=
  { firstName := "John", lastName := "Doe", email := "john@smu.edu.ph"
    age := 25, gender := "male", password := "password123" }

/-- A registration body reusing the email of the account above. -/
def aliceDupBody : RegisterBody :=
  { firstName := "Another", lastName := "Person", email := "alice@smu.edu.ph"
    age := 22, gender := "female", password := "secret12" }

/-- A validation-gate input whose first name contains a space. -/
def maryReq : ReqBody :=
  { firstName := some "Mary Jane", lastName := some "Doe"
    email := some "mary.jane@smu.edu.ph", age := some 30
    gender := some "female" }

/-- A registration body whose first name contains a space. -/
def maryRegBody : RegisterBody :=
  { firstName := "Mary Jane", lastName := "Doe"
    email := "mary.jane@smu.edu.ph", age := 30, gender := "female"
    password := "secret12" }

/-- The creation candidate of the body above. -/
def maryCandidate : Candidate := candidateOf maryRegBody

/-- A creation candidate whose names are letters only. -/
def benCandidate : Candidate :=
  { firstName := "Ben", lastName := "Cruz", email := "ben.cruz@smu.edu.ph"
    age := 40, gender := "male" }

/-- A validation-gate input with age 0 and every other field present. -/
def ageZeroReq : ReqBody :=
  { firstName := some "John", lastName := some "Doe"
    email := some "john@smu.edu.ph", age := some 0, gender := some "male" }

example : nameMatch "Mary Jane" = true := by decide
example : schemaNameOk "Mary Jane" = false := by decide
example : emailMatch "john@smu.edu.ph" = true := by decide
example : emailMatch "john@x.smu.edu.ph" = false := by decide
example : emailMatch "@smu.edu.ph" = false := by decide
/-! ### Helper lemmas -/

/-- A letter is never a whitespace character. -/
theorem isAlpha_not_white (c : Char) (h : c.isAlpha = true) :
    c.isWhitespace = false := by
  simp only [Char.isAlpha, Char.isUpper, Char.isLower, Bool.or_eq_true,
    Bool.and_eq_true, decide_eq_true_eq] at h
  simp only [Char.isWhitespace, Bool.or_eq_false_iff, decide_eq_false_iff_not]
  have h32 : (' ' : Char).val = 32 := rfl
  have h9 : ('\t' : Char).val = 9 := rfl
  have h13 : ('\r' : Char).val = 13 := rfl
  have h10 : ('\n' : Char).val = 10 := rfl
  refine ⟨⟨⟨?_, ?_⟩, ?_⟩, ?_⟩ <;>
    intro he <;>
    rw [Char.ext_iff] at he <;>
    rw [he] at h <;>
    simp [h32, h9, h13, h10] at h

/-- Dropping while a predicate fails on every element is the identity. -/
theorem dropWhile_of_all_not (p : Char → Bool) :
    ∀ l : List Char, l.all (fun c => !p c) = true → l.dropWhile p = l
  | [], _ => rfl
  | a :: as, h => by
    simp only [List.all_cons, Bool.and_eq_true, Bool.not_eq_true'] at h
    simp [List.dropWhile_cons, h.1]

/-- Trimming a list with no whitespace characters is the identity. -/
theorem trimChars_of_all_not_white (cs : List Char)
    (h : cs.all (fun c => !isWhite c) = true) : trimChars cs = cs := by
  unfold trimChars
  rw [dropWhile_of_all_not isWhite cs h,
    dropWhile_of_all_not isWhite cs.reverse (by rw [List.all_reverse]; exact h),
    List.reverse_reverse]

/-- All-letters lists pass the middleware name character class. -/
theorem all_nameChar_of_all_alpha (cs : List Char)
    (h : cs.all Char.isAlpha = true) : cs.all isNameChar = true := by
  rw [List.all_eq_true] at h ⊢
  intro c hc
  simp [isNameChar, h c hc]

/-- All-letters lists contain no whitespace. -/
theorem all_not_white_of_all_alpha (cs : List Char)
    (h : cs.all Char.isAlpha = true) : cs.all (fun c => !isWhite c) = true := by
  rw [List.all_eq_true] at h ⊢
  intro c hc
  simp [isWhite, isAlpha_not_white c (h c hc)]

/-- The character list of a string has the string's length. -/
theorem toList_length (s : String) : s.toList.length = s.length := rfl

/-- The demonstration hash never returns its plaintext input. -/
theorem demoHash_ne (s p : String) : demoHash s p ≠ p := by
  intro h
  have hl : ("$2b$10$" ++ s ++ p).length = p.length := congrArg String.length h
  rw [String.length_append, String.length_append] at hl
  have h7 : ("$2b$10$" : String).length = 7 := rfl
  rw [h7] at hl
  omega

/-! ### Claim theorems -/

/-- C1: the source updateUser has no self-modification guard.  With the
caller and the target both being account u1 and a role change in the
body, the handler answers 200 and writes the new role to the store; it
does not answer 403 with the message the claim (and the repository's own
unit tests) require.  The non-self part of the claim does hold, since the
handler never reads the caller identity at all. -/
theorem C1_self_role_change_unguarded :
    (updateUser [aliceUser] "u1" "u1" { role := some "admin" }).2.status = 200
    ∧ (updateUser [aliceUser] "u1" "u1" { role := some "admin" }).2.message
        ≠ some "You cannot change your own role"
    ∧ (findById (updateUser [aliceUser] "u1" "u1"
        { role := some "admin" }).1 "u1").map StoredUser.role = some "admin"
    ∧ (updateUser [aliceUser, carlosUser] "u1" "u2"
        { role := some "admin" }).2.status = 200 := by
  decide

/-- C2: the source deleteUser has no self-deletion guard.  With the
caller and the target both being account u1, the handler answers 200 and
removes the account from the store; it does not answer 403 with the
message the claim (and the repository's own unit tests) require. -/
theorem C2_self_delete_unguarded :
    (deleteUser [aliceUser] "u1" "u1").2.status = 200
    ∧ (deleteUser [aliceUser] "u1" "u1").2.message
        ≠ some "You cannot delete your own profile"
    ∧ (deleteUser [aliceUser] "u1" "u1").1 = [] := by
  decide

/-- C3: no route of the user router registers the auth middleware or a
role check — the only checkRole line in the source route file is
commented out — so an unauthenticated request to an admin endpoint
reaches the handler directly instead of being rejected with 401 or 403;
in particular the chain of GET / is exactly the getAllUsers handler. -/
theorem C3_admin_routes_unprotected :
    (userRoutes.all fun r => r.chain.all fun m => !isAuthOrRole m) = true
    ∧ (userRoutes.find? fun r => r.method == "GET" && r.path == "/").map
        Route.chain = some [MW.handlerMW "getAllUsers"] := by
  decide

/-- C6: a second registration with an email already present in the store
is rejected with 400 and the duplicate message, and the store — hence the
first account with all its fields — is left exactly as it was. -/
theorem C6_duplicate_register_rejected
    (hashFn : String → String → String) (freshId freshSalt : String)
    (st : Store) (b : RegisterBody) (u : StoredUser)
    (hfound : findByEmail st b.email = some u) :
    register hashFn freshId freshSalt st b
      = (st, { status := 400, success := false
               message := "User with this email already exists" }) := by
  unfold register
  rw [hfound]

/-- Witness for C6 at a concrete store and body. -/
theorem C6_duplicate_register_rejected_witness :
    findByEmail [aliceUser] aliceDupBody.email = some aliceUser
    ∧ register demoHash "u2" "s2" [aliceUser] aliceDupBody
        = ([aliceUser], { status := 400, success := false
                          message := "User with this email already exists" }) :=
  ⟨by decide, C6_duplicate_register_rejected demoHash "u2" "s2" [aliceUser]
      aliceDupBody aliceUser (by decide)⟩

/-- C7: registering the concrete John body, which carries no role,
answers 201; the returned user object holds role staff (the default) and
the John email, and the token is signed with a 7-day expiry and embeds
the fresh account id, the email and role staff. -/
theorem C7_register_john_defaults_staff :
    (register demoHash "newid1" "salt1" [] johnBody).2.status = 201
    ∧ (register demoHash "newid1" "salt1" [] johnBody).2.userFields
        = some [("id", "newid1"), ("firstName", "John"), ("lastName", "Doe"),
                ("email", "john@smu.edu.ph"), ("role", "staff")]
    ∧ (register demoHash "newid1" "salt1" [] johnBody).2.token
        = some { id := "newid1", email := "john@smu.edu.ph", role := "staff"
                 expiresIn := "7d" } := by
  decide

/-- C9: with age 0 and every other required field present, validateUser
answers 400 with the presence message and not the range message: the
presence check runs first, age 0 is falsy, and the first failing check
short-circuits. -/
theorem C9_age_zero_trips_presence (b : ReqBody)
    (ha : b.age = some 0)
    (hf : truthyS b.firstName = true) (hl : truthyS b.lastName = true)
    (he : truthyS b.email = true) (hg : truthyS b.gender = true) :
    validateUser b = MWResult.reject 400 "Some Fields are Missing"
    ∧ validateUser b ≠ MWResult.reject 400 "Age Must Be Between 1 and 500" := by
  have hmain : validateUser b = MWResult.reject 400 "Some Fields are Missing" := by
    unfold validateUser
    rw [ha]
    simp [truthyI]
  refine ⟨hmain, ?_⟩
  rw [hmain]
  decide

/-- Witness for C9 at a concrete body. -/
theorem C9_age_zero_trips_presence_witness :
    ageZeroReq.age = some 0
    ∧ truthyS ageZeroReq.firstName = true
    ∧ truthyS ageZeroReq.lastName = true
    ∧ truthyS ageZeroReq.email = true
    ∧ truthyS ageZeroReq.gender = true
    ∧ (validateUser ageZeroReq = MWResult.reject 400 "Some Fields are Missing"
       ∧ validateUser ageZeroReq
           ≠ MWResult.reject 400 "Age Must Be Between 1 and 500") :=
  ⟨by decide, by decide, by decide, by decide, by decide,
   C9_age_zero_trips_presence ageZeroReq (by decide) (by decide) (by decide)
     (by decide) (by decide)⟩

/-- C10: getAllUsers always answers 200 with the stored-account count and
the full list; the 404 branch is unreachable because find resolves to an
array and an array is never falsy. -/
theorem C10_getAllUsers_always_200 (st : Store) :
    getAllUsers st
      = { status := 200, success := true, count := some st.length
          data := some st }
    ∧ (getAllUsers st).status ≠ 404 := by
  refine ⟨rfl, fun h => ?_⟩
  simp [getAllUsers, userFind, jsArrayFalsy] at h

/-- Witness for C10 at a concrete one-account store. -/
theorem C10_getAllUsers_always_200_witness :
    getAllUsers [aliceUser]
      = { status := 200, success := true, count := some 1
          data := some [aliceUser] }
    ∧ (getAllUsers [aliceUser]).status ≠ 404 :=
  C10_getAllUsers_always_200 [aliceUser]

/-- A successful registration (no duplicate, valid candidate, password of
length at least 6) appends exactly the new account and answers 201 with
the public user object and a 7-day token. -/
theorem register_success_eq
    (hashFn : String → String → String) (freshId freshSalt : String)
    (st : Store) (b : RegisterBody)
    (hdup : findByEmail st b.email = none)
    (hval : schemaValidates (candidateOf b) = true)
    (hpw : 6 ≤ b.password.length) :
    register hashFn freshId freshSalt st b
      = (st ++ [newUser hashFn freshId freshSalt b],
         { status := 201, success := true
           message := "User registered successfully"
           userFields := some (publicUserJson (newUser hashFn freshId freshSalt b))
           token := some { id := freshId, email := b.email
                           role := roleOrDefault b.role
                           expiresIn := "7d" } }) := by
  unfold register
  rw [hdup, hval, decide_eq_true hpw]
  simp [newUser]

/-- C4: a valid registration answers 201 with a user object that carries
no credential key, and the account the store persists holds a hashed
credential with work factor 10 and the fresh salt, whose digest is the
hash of the submitted plaintext and — for any hash whose output never
equals its input, as with bcrypt — is not the submitted plaintext. -/
theorem C4_register_hides_credential
    (hashFn : String → String → String) (hNe : ∀ s p, hashFn s p ≠ p)
    (freshId freshSalt : String) (st : Store) (b : RegisterBody)
    (hdup : findByEmail st b.email = none)
    (hval : schemaValidates (candidateOf b) = true)
    (hpw : 6 ≤ b.password.length) :
    (register hashFn freshId freshSalt st b).2.status = 201
    ∧ (∀ fields kv,
        (register hashFn freshId freshSalt st b).2.userFields = some fields →
        kv ∈ fields → kv.1 ≠ "password")
    ∧ (∃ u, (register hashFn freshId freshSalt st b).1 = st ++ [u]
        ∧ u.password.cost = 10 ∧ u.password.salt = freshSalt
        ∧ u.password.digest = hashFn freshSalt b.password
        ∧ u.password.digest ≠ b.password) := by
  rw [register_success_eq hashFn freshId freshSalt st b hdup hval hpw]
  refine ⟨rfl, ?_, ?_⟩
  · intro fields kv hf hm
    injection hf with hf
    subst hf
    simp only [publicUserJson, List.mem_cons, List.mem_singleton,
      List.not_mem_nil, or_false] at hm
    rcases hm with rfl | rfl | rfl | rfl | rfl <;> simp
  · exact ⟨newUser hashFn freshId freshSalt b, rfl, rfl, rfl, rfl,
      hNe freshSalt b.password⟩

/-- Witness for C4 at a concrete hash function, store and body. -/
theorem C4_register_hides_credential_witness :
    (∀ s p, demoHash s p ≠ p)
    ∧ findByEmail [] johnBody.email = none
    ∧ schemaValidates (candidateOf johnBody) = true
    ∧ 6 ≤ johnBody.password.length
    ∧ ((register demoHash "u9" "s9" [] johnBody).2.status = 201
       ∧ (∀ fields kv,
           (register demoHash "u9" "s9" [] johnBody).2.userFields = some fields →
           kv ∈ fields → kv.1 ≠ "password")
       ∧ (∃ u, (register demoHash "u9" "s9" [] johnBody).1 = [] ++ [u]
           ∧ u.password.cost = 10 ∧ u.password.salt = "s9"
           ∧ u.password.digest = demoHash "s9" johnBody.password
           ∧ u.password.digest ≠ johnBody.password)) :=
  ⟨demoHash_ne, by decide, by decide, by decide,
   C4_register_hides_credential demoHash demoHash_ne "u9" "s9" [] johnBody
     (by decide) (by decide) (by decide)⟩

/-- C5: a login whose email is absent from the store and a login whose
email is present but whose password does not match both answer 401 with
the identical message, so the two failure causes are externally
indistinguishable. -/
theorem C5_login_failures_indistinguishable
    (hashFn : String → String → String) (st : Store)
    (e1 p1 e2 p2 : String) (u : StoredUser)
    (he1 : e1 ≠ "") (hp1 : p1 ≠ "") (he2 : e2 ≠ "") (hp2 : p2 ≠ "")
    (habsent : findByEmail st e1 = none)
    (hpresent : findByEmail st e2 = some u)
    (hmismatch : comparePassword hashFn u.password p2 = false) :
    login hashFn st { email := some e1, password := some p1 }
      = { status := 401, success := false
          message := "Invalid email or password" }
    ∧ login hashFn st { email := some e2, password := some p2 }
      = { status := 401, success := false
          message := "Invalid email or password" }
    ∧ (login hashFn st { email := some e1, password := some p1 }).message
      = (login hashFn st { email := some e2, password := some p2 }).message := by
  have h1 : login hashFn st { email := some e1, password := some p1 }
      = { status := 401, success := false
          message := "Invalid email or password" } := by
    unfold login
    simp [truthyS, he1, hp1, habsent]
  have h2 : login hashFn st { email := some e2, password := some p2 }
      = { status := 401, success := false
          message := "Invalid email or password" } := by
    unfold login
    simp [truthyS, he2, hp2, hpresent, hmismatch]
  exact ⟨h1, h2, by rw [h1, h2]⟩

/-- Witness for C5 at a concrete store: bob is unknown, alice is present
with a non-matching password. -/
theorem C5_login_failures_indistinguishable_witness :
    ("bob@smu.edu.ph" ≠ "" ∧ "pw1" ≠ "" ∧ "alice@smu.edu.ph" ≠ "" ∧ "wrong1" ≠ "")
    ∧ findByEmail [aliceUser] "bob@smu.edu.ph" = none
    ∧ findByEmail [aliceUser] "alice@smu.edu.ph" = some aliceUser
    ∧ comparePassword demoHash aliceUser.password "wrong1" = false
    ∧ (login demoHash [aliceUser]
          { email := some "bob@smu.edu.ph", password := some "pw1" }
        = { status := 401, success := false
            message := "Invalid email or password" }
       ∧ login demoHash [aliceUser]
            { email := some "alice@smu.edu.ph", password := some "wrong1" }
          = { status := 401, success := false
              message := "Invalid email or password" }
       ∧ (login demoHash [aliceUser]
            { email := some "bob@smu.edu.ph", password := some "pw1" }).message
          = (login demoHash [aliceUser]
              { email := some "alice@smu.edu.ph",
                password := some "wrong1" }).message) :=
  ⟨⟨by decide, by decide, by decide, by decide⟩, by decide, by decide, by decide,
   C5_login_failures_indistinguishable demoHash [aliceUser]
     "bob@smu.edu.ph" "pw1" "alice@smu.edu.ph" "wrong1" aliceUser
     (by decide) (by decide) (by decide) (by decide)
     (by decide) (by decide) (by decide)⟩

/-- C8 counterexample: the first name Mary Jane (letters and a space,
9 characters) passes the validation middleware, but the store schema's
name pattern admits letters only, so the candidate fails schema
validation and registration does not persist it: the claim that such
names are valid end to end is false on this input. -/
theorem C8_counterexample_space_name_not_persisted :
    validateUser maryReq = MWResult.next
    ∧ schemaNameOk "Mary Jane" = false
    ∧ schemaValidates maryCandidate = false
    ∧ register demoHash "u3" "s3" [] maryRegBody
        = ([], { status := 500, success := false
                 message := "ValidationError" }) := by
  decide

/-- C8 amended: a creation candidate whose first and last names are
letters only (no spaces), 2 to 30 characters, with valid remaining
fields, passes both the validation middleware and the store schema; a
name containing a space passes only the middleware, because the schema
pattern admits letters without spaces. -/
theorem C8_amended_letters_only_valid_end_to_end (c : Candidate)
    (hf2 : 2 ≤ c.firstName.length) (hf30 : c.firstName.length ≤ 30)
    (hfa : c.firstName.toList.all Char.isAlpha = true)
    (hl2 : 2 ≤ c.lastName.length) (hl30 : c.lastName.length ≤ 30)
    (hla : c.lastName.toList.all Char.isAlpha = true)
    (hm : c.middleInitial = none)
    (hee : emailMatch c.email = true)
    (hes : schemaEmailOk c.email = true)
    (ha1 : 1 ≤ c.age) (ha5 : c.age ≤ 500)
    (hg : ["male", "female", "rather not say"].contains c.gender = true) :
    validateUser (reqOf c) = MWResult.next ∧ schemaValidates c = true := by
  have hfne : c.firstName ≠ "" := by
    intro h; rw [h] at hf2; exact absurd hf2 (by decide)
  have hlne : c.lastName ≠ "" := by
    intro h; rw [h] at hl2; exact absurd hl2 (by decide)
  have hemail12 : 12 ≤ c.email.toList.length := by
    have h := hee
    simp only [emailMatch, Bool.and_eq_true, decide_eq_true_eq] at h
    exact h.1.1
  have hene : c.email ≠ "" := by
    intro h; rw [h] at hemail12; exact absurd hemail12 (by decide)
  have hg' : c.gender = "male" ∨ c.gender = "female"
      ∨ c.gender = "rather not say" := by
    simpa using hg
  have hgne : c.gender ≠ "" := by
    rcases hg' with h | h | h <;> rw [h] <;> decide
  have ha0 : c.age ≠ 0 := by omega
  have hn1 : nameMatch c.firstName = true := by
    unfold nameMatch
    rw [all_nameChar_of_all_alpha _ hfa]
    simp only [Bool.and_true]
    exact decide_eq_true (by omega)
  have hn2 : nameMatch c.lastName = true := by
    unfold nameMatch
    rw [all_nameChar_of_all_alpha _ hla]
    simp only [Bool.and_true]
    exact decide_eq_true (by omega)
  have hagel : ¬(c.age < 1) := by omega
  have hageh : ¬(c.age > 500) := by omega
  constructor
  · unfold validateUser reqOf
    rcases hg' with hgv | hgv | hgv <;>
      simp [truthyS, truthyI, hfne, hlne, hene, hgv, ha0, hn1, hn2, hm, hee,
        hagel, hageh]
  · unfold schemaValidates schemaNameOk
    rw [hm]
    rw [trimChars_of_all_not_white _ (all_not_white_of_all_alpha _ hfa),
      trimChars_of_all_not_white _ (all_not_white_of_all_alpha _ hla)]
    have hfa2 : ∀ x ∈ c.firstName.data, x.isAlpha = true := List.all_eq_true.mp hfa
    have hla2 : ∀ x ∈ c.lastName.data, x.isAlpha = true := List.all_eq_true.mp hla
    rcases hg' with hgv | hgv | hgv <;>
      (simp [schemaMiddleOk, toList_length, hes, hgv, hf2, hf30,
        hl2, hl30, ha1, ha5] <;> exact ⟨hfa2, hla2⟩)

/-- Witness for the amended C8 at a concrete letters-only candidate. -/
theorem C8_amended_letters_only_witness :
    (2 ≤ benCandidate.firstName.length ∧ benCandidate.firstName.length ≤ 30
     ∧ benCandidate.firstName.toList.all Char.isAlpha = true)
    ∧ (2 ≤ benCandidate.lastName.length ∧ benCandidate.lastName.length ≤ 30
       ∧ benCandidate.lastName.toList.all Char.isAlpha = true)
    ∧ benCandidate.middleInitial = none
    ∧ emailMatch benCandidate.email = true
    ∧ schemaEmailOk benCandidate.email = true
    ∧ (1 ≤ benCandidate.age ∧ benCandidate.age ≤ 500)
    ∧ ["male", "female", "rather not say"].contains benCandidate.gender = true
    ∧ (validateUser (reqOf benCandidate) = MWResult.next
       ∧ schemaValidates benCandidate = true) :=
  ⟨⟨by decide, by decide, by decide⟩, ⟨by decide, by decide, by decide⟩,
   by decide, by decide, by decide, ⟨by decide, by decide⟩, by decide,
   C8_amended_letters_only_valid_end_to_end benCandidate
     (by decide) (by decide) (by decide) (by decide) (by decide) (by decide)
     (by decide) (by decide) (by decide) (by decide) (by decide) (by decide)⟩

end UserApi
